import Mathlib

/-!
Shallow embedding of the Mass-Mailer-CLI wizard (src/main.go).

The program is a bubbletea terminal wizard: a `model` record threaded through
an event loop.  We embed the session record, the event type, the command type
and every per-screen handler from src/main.go.  Time is modelled as `Nat`
nanoseconds carried on the events (the Go code reads the wall clock while
handling an event, so each event carries the instant at which it is handled).
The bubbles widgets (file picker, text input, menu list, progress bar) are
external collaborators whose sources are not part of this repository; they are
modelled from the spec's collaborator contracts, with the file picker's
selection report carried on the event as an oracle.
-/

namespace MassMailer

/-- Screen constants, mirroring the `iota` block of src/main.go. -/
def homeView : Nat := 0

/-- `fileSelectionView = 1` in the `iota` block of src/main.go. -/
def fileSelectionView : Nat := 1

/-- `subjectInputView = 2` in the `iota` block of src/main.go. -/
def subjectInputView : Nat := 2

/-- `confirmationView = 3` in the `iota` block of src/main.go. -/
def confirmationView : Nat := 3

/-- `progressView = 4` in the `iota` block of src/main.go. -/
def progressView : Nat := 4

/-- `quitView = 5` in the `iota` block of src/main.go. -/
def quitView : Nat := 5

/-- `padding = 2` from src/main.go. -/
def padding : Int := 2

/-- `maxWidth = 100` from src/main.go. -/
def maxWidth : Int := 100

/-- One nanosecond-count per Go `time.Second`. -/
def second : Nat := 1000000000

/-- One nanosecond-count per Go `time.Millisecond`. -/
def millisecond : Nat := 1000000

/-- `debounceDuration = time.Second * 5` from src/main.go. -/
def debounceDuration : Nat := 5 * second

/-- Events delivered by the bubbletea runtime to `model.Update`.
`key` carries the key's `String()` form, the file-picker selection oracle
(what `DidSelectFile` reports if this event is forwarded to the active picker),
and the wall-clock instant at which the key is handled.  `tick` is `tickMsg`
carrying its instant, `exit` is `exitMsg` with its tag, `windowSize` is
`tea.WindowSizeMsg`, `mouse` is `tea.MouseMsg`, `frame` is
`progress.FrameMsg`. -/
inductive Msg where
  | key (s : String) (pick : Option String) (now : Nat)
  | windowSize (width height : Int)
  | tick (now : Nat)
  | exit (tag : Nat)
  | mouse
  | frame
  deriving DecidableEq, Repr

/-- Commands returned to the bubbletea runtime (`tea.Cmd`).  `tick i` is
`tea.Tick(i, …tickMsg…)`, `exitTick d t` is the `tea.Tick(debounceDuration,
…exitMsg(tag)…)` armed on the Progress screen, `initPicker` is
`csvFilepicker.Init()`, `blink` is `textinput.Blink`, `setPercentAnim` is the
animation command returned by `progress.SetPercent`, and `sub` stands for an
opaque command returned by a sub-widget's own `Update`. -/
inductive Cmd where
  | none
  | quit
  | batch (cs : List Cmd)
  | tick (intervalNs : Nat)
  | exitTick (afterNs : Nat) (tag : Nat)
  | initPicker
  | blink
  | setPercentAnim
  | sub
  deriving Repr

/-- Modelled from the spec: the Menu List is an external collaborator
("renders a small set of selectable labeled actions with a movable cursor");
its source (bubbles `list.Model`) is not part of this repository.  Only the
cursor index over the two fixed home items is relevant to the wizard. -/
structure ListState where
  index : Nat
  deriving DecidableEq, Repr

/-- Modelled from the spec: the File Selector is an external collaborator
("presents entries of a directory … reports when a file matching an allowed
extension is chosen"); its source (bubbles `filepicker.Model`) is not part of
this repository.  Only its current directory is relevant to the wizard; its
selection report is the oracle carried on the event. -/
structure Filepicker where
  currentDirectory : String
  deriving DecidableEq, Repr

/-- State of the bubbles progress bar relevant to the wizard: its rendered
width and the target fraction last given to `SetPercent`. -/
structure Progress where
  width : Int
  targetPercent : ℚ
  deriving DecidableEq, Repr

/-- The session record: the `model` struct of src/main.go.  `textInput` is the
Text Field's current value (the widget is an external collaborator; only its
committed value is relevant).  `startTime` is `none` while the Go
`time.Time` zero value would report `IsZero()`. -/
structure Model where
  list : ListState
  csvFilepicker : Filepicker
  htmlFilepicker : Filepicker
  textInput : String
  progress : Progress
  currentView : Nat
  csvFilePath : String
  htmlFilePath : String
  subject : String
  confirmed : Bool
  quitting : Bool
  cursor : Int
  startTime : Option Nat
  tag : Nat
  quitTimer : Nat
  windowWidth : Int
  windowHeight : Int
  deriving DecidableEq, Repr

/-- `list.Model.CursorUp`: move the menu cursor up, stopping at the first
item (modelled from the spec's Menu List collaborator contract). -/
def listCursorUp (l : ListState) : ListState :=
  { l with index := l.index - 1 }

/-- `list.Model.CursorDown`: move the menu cursor down, stopping at the last
of the two home items (modelled from the spec's Menu List collaborator
contract). -/
def listCursorDown (l : ListState) : ListState :=
  { l with index := min (l.index + 1) 1 }

/-- `m.list.Update(msg)`: the Menu List's own event handling (modelled from
the spec's collaborator contract: cursor movement on up/down keys, everything
else internal).  It never touches session fields. -/
def listUpdate (msg : Msg) (l : ListState) : ListState × Cmd :=
  match msg with
  | .key s _ _ =>
      if s = "up" ∨ s = "k" then (listCursorUp l, .sub)
      else if s = "down" ∨ s = "j" then (listCursorDown l, .sub)
      else (l, .sub)
  | _ => (l, .sub)

/-- `filepicker.Model.Update`: the File Selector's own event handling
(modelled from the spec's collaborator contract; internal navigation state is
not relevant to the wizard, so the state is carried unchanged). -/
def filepickerUpdate (_msg : Msg) (fp : Filepicker) : Filepicker × Cmd :=
  (fp, .sub)

/-- `filepicker.Model.DidSelectFile(msg)`: modelled from the spec ("reports
when a file matching an allowed extension is chosen"); the report is the
oracle carried on the key event. -/
def didSelectFile (msg : Msg) : Option String :=
  match msg with
  | .key _ pick _ => pick
  | _ => Option.none

/-- Whether a key's `String()` form is a single printable character that the
Text Field would append (modelled from the spec's Text Field collaborator
contract: "single-line editable text"; named keys such as "enter" or "tab"
are not characters). -/
def isCharKey (s : String) : Bool :=
  s.length == 1

/-- `m.textInput.Update(msg)`: the Text Field's own event handling (modelled
from the spec's collaborator contract: character keys append to the value,
named keys leave the committed value unchanged). -/
def textInputUpdate (msg : Msg) (v : String) : String × Cmd :=
  match msg with
  | .key s _ _ => if isCharKey s then (v ++ s, .sub) else (v, .sub)
  | _ => (v, .sub)

/-- `math.Max(0, math.Min(1, p))`: the clamp applied by
`progress.Model.SetPercent`. -/
def clamp01 (p : ℚ) : ℚ :=
  max 0 (min 1 p)

/-- `m.progress.SetPercent(p)`: records the clamped target fraction and
returns the animation command. -/
def progressSetPercent (p : ℚ) (pr : Progress) : Progress × Cmd :=
  ({ pr with targetPercent := clamp01 p }, .setPercentAnim)

/-- `tickCmd()` from src/main.go: `tea.Tick(time.Millisecond*100, … tickMsg …)`. -/
def tickCmd : Cmd :=
  .tick (100 * millisecond)

/-- `updateProgress` from src/main.go: resize caps the bar width at
`maxWidth`; a timer tick lazily records `startTime`, quits once five seconds
have elapsed and otherwise sets the bar fraction and re-arms the timer;
a `progress.FrameMsg` is forwarded to the bar's own handler. -/
def updateProgress (msg : Msg) (m : Model) : Model × Cmd :=
  match msg with
  | .windowSize w _ =>
      let wNew := w - padding * 2 - 4
      let wNew := if wNew > maxWidth then maxWidth else wNew
      ({ m with progress := { m.progress with width := wNew } }, .none)
  | .tick now =>
      let m := if m.startTime.isNone then { m with startTime := some now } else m
      let elapsed := now - m.startTime.getD 0
      if elapsed ≥ 5 * second then
        (m, .quit)
      else
        let progressNum : ℚ := (elapsed : ℚ) / ((5 * second : Nat) : ℚ)
        let pc := progressSetPercent progressNum m.progress
        ({ m with progress := pc.1 }, .batch [tickCmd, pc.2])
  | .frame => (m, .sub)
  | _ => (m, .none)

/-- `updateFileSelection` from src/main.go: while `csvFilePath` is empty the
CSV picker is active, afterwards the HTML picker; "enter" consults
`DidSelectFile` — a CSV pick stores the path and re-seeds the HTML picker's
directory, an HTML pick stores the path and moves to the subject screen;
every other event is forwarded to the active picker. -/
def updateFileSelection (msg : Msg) (m : Model) : Model × Cmd :=
  match msg with
  | .key s _ _ =>
      if s = "tab" then
        if m.csvFilePath = "" then
          let fc := filepickerUpdate msg m.csvFilepicker
          ({ m with csvFilepicker := fc.1 }, fc.2)
        else
          let fc := filepickerUpdate msg m.htmlFilepicker
          ({ m with htmlFilepicker := fc.1 }, fc.2)
      else if s = "enter" then
        if m.csvFilePath = "" then
          let fc := filepickerUpdate msg m.csvFilepicker
          let m := { m with csvFilepicker := fc.1 }
          match didSelectFile msg with
          | some path =>
              ({ m with
                  csvFilePath := path,
                  htmlFilepicker :=
                    { m.htmlFilepicker with
                        currentDirectory := m.csvFilepicker.currentDirectory } },
                .none)
          | Option.none => (m, fc.2)
        else
          let fc := filepickerUpdate msg m.htmlFilepicker
          let m := { m with htmlFilepicker := fc.1 }
          match didSelectFile msg with
          | some path =>
              ({ m with htmlFilePath := path, currentView := subjectInputView },
                .blink)
          | Option.none => (m, fc.2)
      else
        if m.csvFilePath = "" then
          let fc := filepickerUpdate msg m.csvFilepicker
          ({ m with csvFilepicker := fc.1 }, fc.2)
        else
          let fc := filepickerUpdate msg m.htmlFilepicker
          ({ m with htmlFilepicker := fc.1 }, fc.2)
  | _ =>
      if m.csvFilePath = "" then
        let fc := filepickerUpdate msg m.csvFilepicker
        ({ m with csvFilepicker := fc.1 }, fc.2)
      else
        let fc := filepickerUpdate msg m.htmlFilepicker
        ({ m with htmlFilepicker := fc.1 }, fc.2)

/-- `updateSubjectInput` from src/main.go: every event is delegated to the
Text Field first; if the event is the enter key, the Text Field's value as it
stands after the delegation is committed into `subject` and the screen moves
to Confirmation. -/
def updateSubjectInput (msg : Msg) (m : Model) : Model × Cmd :=
  let tc := textInputUpdate msg m.textInput
  let m := { m with textInput := tc.1 }
  match msg with
  | .key s _ _ =>
      if s = "enter" then
        ({ m with subject := m.textInput, currentView := confirmationView }, tc.2)
      else (m, tc.2)
  | _ => (m, tc.2)

/-- `updateConfirmation` from src/main.go: down/j and up/k move the two-item
cursor with wraparound; enter sets `confirmed` from the cursor and either
moves to Progress arming the timer (cursor 0) or returns `tea.Quit`
(cursor 1). -/
def updateConfirmation (msg : Msg) (m : Model) : Model × Cmd :=
  match msg with
  | .key s _ _ =>
      if s = "down" ∨ s = "j" then
        let c := m.cursor + 1
        ({ m with cursor := if c > 1 then 0 else c }, .none)
      else if s = "up" ∨ s = "k" then
        let c := m.cursor - 1
        ({ m with cursor := if c < 0 then 1 else c }, .none)
      else if s = "enter" then
        let conf := m.cursor == 0
        let m := { m with confirmed := conf }
        if conf then ({ m with currentView := progressView }, tickCmd)
        else (m, .quit)
      else (m, .none)
  | _ => (m, .none)

/-- The tail of `model.Update` in src/main.go: `m.list, cmd = m.list.Update(msg)`
followed by the per-view dispatch switch; views without a handler return the
list command. -/
def dispatch (msg : Msg) (m : Model) : Model × Cmd :=
  let lc := listUpdate msg m.list
  let m := { m with list := lc.1 }
  if m.currentView = fileSelectionView then updateFileSelection msg m
  else if m.currentView = subjectInputView then updateSubjectInput msg m
  else if m.currentView = confirmationView then updateConfirmation msg m
  else if m.currentView = progressView then updateProgress msg m
  else (m, lc.2)

/-- The fall-through after the per-view key switch in `model.Update`: the
global "ctrl+c"/"q" quit check, then list update and per-view dispatch. -/
def globalQuitThenDispatch (s : String) (msg : Msg) (m : Model) : Model × Cmd :=
  if s = "ctrl+c" ∨ s = "q" then ({ m with quitting := true }, .quit)
  else dispatch msg m

/-- The `case tea.KeyMsg` branch of `model.Update` in src/main.go: the
per-view key switch (home menu navigation and selection, the quit-countdown
check, the Progress-screen debounce that re-tags and schedules an `exitMsg`),
then the global quit check and dispatch for keys that fell through. -/
def updateKey (s : String) (pick : Option String) (now : Nat) (m : Model) :
    Model × Cmd :=
  let msg : Msg := .key s pick now
  if m.currentView = homeView then
    if s = "up" ∨ s = "k" then
      globalQuitThenDispatch s msg { m with list := listCursorUp m.list }
    else if s = "down" ∨ s = "j" then
      globalQuitThenDispatch s msg { m with list := listCursorDown m.list }
    else if s = "enter" then
      if m.list.index = 0 then
        ({ m with currentView := fileSelectionView }, .initPicker)
      else
        ({ m with quitting := true }, .quit)
    else globalQuitThenDispatch s msg m
  else if m.currentView = quitView then
    if now - m.quitTimer ≥ 5 * second then (m, .quit)
    else globalQuitThenDispatch s msg m
  else if m.currentView = progressView then
    let m := { m with tag := m.tag + 1 }
    (m, .exitTick debounceDuration m.tag)
  else globalQuitThenDispatch s msg m

/-- `model.Update` from src/main.go: the top-level event handler.  Resize
records the terminal size and falls through to dispatch; keys go through
`updateKey`; mouse events are swallowed; an `exitMsg` whose tag matches on
the Progress screen quits, any other `exitMsg` falls through; timer ticks and
frame messages fall through to dispatch. -/
def update (m : Model) (msg : Msg) : Model × Cmd :=
  match msg with
  | .windowSize w h =>
      dispatch msg { m with windowWidth := w, windowHeight := h }
  | .key s pick now => updateKey s pick now m
  | .mouse => (m, .none)
  | .exit t =>
      if m.currentView = progressView ∧ t = m.tag then
        ({ m with quitting := true }, .quit)
      else dispatch msg m
  | .tick _ => dispatch msg m
  | .frame => dispatch msg m

mutual

/-- Whether a command tree contains `tea.Quit` (which makes the bubbletea
run loop stop). -/
def containsQuit : Cmd → Bool
  | .quit => true
  | .batch cs => containsQuitList cs
  | _ => false

/-- `containsQuit` over the commands of a `tea.Batch`. -/
def containsQuitList : List Cmd → Bool
  | [] => false
  | c :: cs => containsQuit c || containsQuitList cs

end

/-- `initialModel` from src/main.go: home screen active, both pickers rooted
at the user's home directory, everything else empty.  The bubbles progress
bar's default width is 40. -/
def initialModel (homeDir : String) : Model :=
  { list := ⟨0⟩
    csvFilepicker := ⟨homeDir⟩
    htmlFilepicker := ⟨homeDir⟩
    textInput := ""
    progress := ⟨40, 0⟩
    currentView := homeView
    csvFilePath := ""
    htmlFilePath := ""
    subject := ""
    confirmed := false
    quitting := false
    cursor := 0
    startTime := Option.none
    tag := 0
    quitTimer := 0
    windowWidth := 0
    windowHeight := 0 }

/-- The bubbletea run loop: events are processed strictly in order; the loop
stops (returning the final model) as soon as an update returns a command
containing `tea.Quit`, dropping any remaining events. -/
def runLoop (m : Model) : List Msg → Model
  | [] => m
  | e :: es =>
      let r := update m e
      if containsQuit r.2 then r.1 else runLoop r.1 es

/-- The summary printed by `main` after the loop ends (src/main.go lines
467-473): the success line when `confirmed` is true, the cancellation line
otherwise. -/
def finalOutput (m : Model) : String :=
  if m.confirmed then
    "Emails sent using CSV file: " ++ m.csvFilePath ++ ", HTML template: " ++
      m.htmlFilePath ++ ", and subject: " ++ m.subject ++ "\n"
  else
    "Operation cancelled.\n"

/-- `main` from src/main.go: run the loop from the initial model over the
delivered events, then print the summary for the final model. -/
def runProgram (homeDir : String) (events : List Msg) : Model × String :=
  let m := runLoop (initialModel homeDir) events
  (m, finalOutput m)

/-- States reachable from some initial session by delivering events one at a
time. -/
inductive Reaches : Model → Prop where
  | init (homeDir : String) : Reaches (initialModel homeDir)
  | step (m : Model) (e : Msg) : Reaches m → Reaches (update m e).1

/-- Whether an event is a key press. -/
def isKeyMsg : Msg → Bool
  | .key _ _ _ => true
  | _ => false

/-- Position of a session in the wizard's linear screen path: Home is 0,
FileSelection stage A (CSV not yet picked) is 1, FileSelection stage B is 2,
SubjectInput is 3, Confirmation is 4, and Progress is 5. -/
def stage (m : Model) : Nat :=
  if m.currentView = homeView then 0
  else if m.currentView = fileSelectionView then
    (if m.csvFilePath = "" then 1 else 2)
  else if m.currentView = subjectInputView then 3
  else if m.currentView = confirmationView then 4
  else 5

/-- Inductive invariant of the wizard: on the Home screen no CSV has been
picked yet, an HTML path is only ever present alongside a CSV path, and a
confirmed session is on the Progress screen. -/
def Inv (m : Model) : Prop :=
  (m.currentView = homeView → m.csvFilePath = "") ∧
  (m.htmlFilePath ≠ "" → m.csvFilePath ≠ "") ∧
  (m.confirmed = true → m.currentView = progressView)

/-- A complete non-quitting pass through the wizard: select the upload menu
entry, pick the CSV, pick the HTML template, commit the (empty) subject, and
confirm "Yes". -/
def demoEvents : List Msg :=
  [ Msg.key "enter" Option.none 0,
    Msg.key "enter" (some "/home/u/data.csv") 0,
    Msg.key "enter" (some "/home/u/tpl.html") 0,
    Msg.key "enter" Option.none 0,
    Msg.key "enter" Option.none 0 ]

/-- Deliver a list of events from a given model, ignoring commands (the
states visited by the loop, whether or not it stops). -/
def foldUpd (m : Model) (es : List Msg) : Model :=
  es.foldl (fun m e => (update m e).1) m

/-- A reachable session on the Progress screen with `confirmed = true`. -/
def progressModel : Model :=
  foldUpd (initialModel "/h") demoEvents

/-- `float64(elapsed) / (5 * float64(time.Second))`: the fraction computed by
`updateProgress` for an elapsed duration (in nanoseconds). -/
def elapsedFraction (elapsed : Nat) : ℚ :=
  (elapsed : ℚ) / ((5 * second : Nat) : ℚ)

/-- The Progress-screen session after its first timer tick (at instant 0):
`startTime` is recorded. -/
def tickedModel : Model :=
  (update progressModel (Msg.tick 0)).1

/-- End-to-end scenario: a full run typing "Welcome" as the subject,
confirming "Yes", and letting the progress timer expire. -/
def scenario1Events : List Msg :=
  [ Msg.key "enter" Option.none 0,
    Msg.key "enter" (some "/home/u/data.csv") 0,
    Msg.key "enter" (some "/home/u/tpl.html") 0,
    Msg.key "W" Option.none 0, Msg.key "e" Option.none 0,
    Msg.key "l" Option.none 0, Msg.key "c" Option.none 0,
    Msg.key "o" Option.none 0, Msg.key "m" Option.none 0,
    Msg.key "e" Option.none 0,
    Msg.key "enter" Option.none 0,
    Msg.key "enter" Option.none 0,
    Msg.tick 10, Msg.tick (10 + 5 * second) ]

/-- End-to-end scenario: the same selections but answering "No" on the
confirmation screen. -/
def scenario2Events : List Msg :=
  [ Msg.key "enter" Option.none 0,
    Msg.key "enter" (some "/home/u/data.csv") 0,
    Msg.key "enter" (some "/home/u/tpl.html") 0,
    Msg.key "enter" Option.none 0,
    Msg.key "down" Option.none 0,
    Msg.key "enter" Option.none 0 ]

/-- End-to-end scenario: confirm "Yes", then press "q" on the Progress
screen; the run ends through the debounced `exitMsg`. -/
def scenario3Events : List Msg :=
  [ Msg.key "enter" Option.none 0,
    Msg.key "enter" (some "/home/u/data.csv") 0,
    Msg.key "enter" (some "/home/u/tpl.html") 0,
    Msg.key "enter" Option.none 0,
    Msg.key "enter" Option.none 0,
    Msg.key "q" Option.none 0,
    Msg.exit 1 ]

/-- `updateProgress` touches only the progress bar and `startTime`. -/
theorem updateProgress_frame (msg : Msg) (m : Model) :
    (updateProgress msg m).1.currentView = m.currentView ∧
    (updateProgress msg m).1.csvFilePath = m.csvFilePath ∧
    (updateProgress msg m).1.htmlFilePath = m.htmlFilePath ∧
    (updateProgress msg m).1.subject = m.subject ∧
    (updateProgress msg m).1.confirmed = m.confirmed ∧
    (updateProgress msg m).1.cursor = m.cursor ∧
    (updateProgress msg m).1.quitting = m.quitting ∧
    (updateProgress msg m).1.tag = m.tag ∧
    (updateProgress msg m).1.list = m.list ∧
    (updateProgress msg m).1.textInput = m.textInput := by
  rcases msg with _ | _ | now | _ | _ | _ <;>
    simp only [updateProgress, progressSetPercent] <;>
    (try split_ifs) <;> simp_all

/-- `updateConfirmation` touches only `cursor`, `confirmed` and (toward
Progress) `currentView`. -/
theorem updateConfirmation_frame (msg : Msg) (m : Model) :
    (updateConfirmation msg m).1.csvFilePath = m.csvFilePath ∧
    (updateConfirmation msg m).1.htmlFilePath = m.htmlFilePath ∧
    (updateConfirmation msg m).1.subject = m.subject ∧
    (updateConfirmation msg m).1.quitting = m.quitting ∧
    (updateConfirmation msg m).1.tag = m.tag ∧
    (updateConfirmation msg m).1.list = m.list ∧
    (updateConfirmation msg m).1.textInput = m.textInput ∧
    ((updateConfirmation msg m).1.currentView = m.currentView ∨
      (updateConfirmation msg m).1.currentView = progressView) := by
  rcases msg with ⟨s, pick, now⟩ | _ | _ | _ | _ | _ <;>
    simp only [updateConfirmation] <;> (try split_ifs) <;> simp_all

/-- The confirmation cursor stays within the two-item choice. -/
theorem updateConfirmation_cursor_mem (msg : Msg) (m : Model)
    (h : m.cursor = 0 ∨ m.cursor = 1) :
    (updateConfirmation msg m).1.cursor = 0 ∨
      (updateConfirmation msg m).1.cursor = 1 := by
  rcases msg with ⟨s, pick, now⟩ | _ | _ | _ | _ | _ <;>
    simp only [updateConfirmation] <;> (try split_ifs) <;>
    rcases h with h | h <;> simp_all

/-- `updateSubjectInput` touches only the text field, `subject` and (toward
Confirmation) `currentView`. -/
theorem updateSubjectInput_frame (msg : Msg) (m : Model) :
    (updateSubjectInput msg m).1.csvFilePath = m.csvFilePath ∧
    (updateSubjectInput msg m).1.htmlFilePath = m.htmlFilePath ∧
    (updateSubjectInput msg m).1.confirmed = m.confirmed ∧
    (updateSubjectInput msg m).1.cursor = m.cursor ∧
    (updateSubjectInput msg m).1.quitting = m.quitting ∧
    (updateSubjectInput msg m).1.tag = m.tag ∧
    (updateSubjectInput msg m).1.list = m.list ∧
    ((updateSubjectInput msg m).1.currentView = m.currentView ∨
      (updateSubjectInput msg m).1.currentView = confirmationView) := by
  rcases msg with ⟨s, pick, now⟩ | _ | _ | _ | _ | _ <;>
    simp only [updateSubjectInput, textInputUpdate] <;>
    (try split_ifs) <;> simp_all

/-- `updateFileSelection` touches only the pickers, the two paths and
(toward SubjectInput) `currentView`; the CSV path is assigned only while it
is empty, the HTML path only while the CSV path is set. -/
theorem updateFileSelection_frame (msg : Msg) (m : Model) :
    (updateFileSelection msg m).1.subject = m.subject ∧
    (updateFileSelection msg m).1.confirmed = m.confirmed ∧
    (updateFileSelection msg m).1.cursor = m.cursor ∧
    (updateFileSelection msg m).1.quitting = m.quitting ∧
    (updateFileSelection msg m).1.tag = m.tag ∧
    (updateFileSelection msg m).1.list = m.list ∧
    (updateFileSelection msg m).1.textInput = m.textInput ∧
    ((updateFileSelection msg m).1.currentView = m.currentView ∨
      ((updateFileSelection msg m).1.currentView = subjectInputView ∧
        ¬ m.csvFilePath = "")) ∧
    (¬ m.csvFilePath = "" →
      (updateFileSelection msg m).1.csvFilePath = m.csvFilePath) ∧
    ((updateFileSelection msg m).1.htmlFilePath = m.htmlFilePath ∨
      ¬ m.csvFilePath = "") := by
  rcases msg with ⟨s, pick, now⟩ | _ | _ | _ | _ | _
  · rcases pick with _ | path <;>
      simp only [updateFileSelection, filepickerUpdate, didSelectFile] <;>
      split_ifs <;> simp_all
  all_goals
    simp only [updateFileSelection, filepickerUpdate] <;>
      split_ifs <;> simp_all

/-- On the Progress screen, a key press is intercepted by the per-view
switch: it only increments the debounce tag and schedules an `exitMsg` after
`debounceDuration`; the global quit check is never reached. -/
theorem update_key_progress (m : Model) (s : String) (pick : Option String)
    (now : Nat) (h : m.currentView = progressView) :
    update m (.key s pick now) =
      ({ m with tag := m.tag + 1 }, .exitTick debounceDuration (m.tag + 1)) := by
  simp [update, updateKey, h, progressView, homeView, quitView]

/-- On the Home, FileSelection, SubjectInput and Confirmation screens, the
quit keys reach the global binding, set `quitting` and return `tea.Quit`. -/
theorem update_key_quit (m : Model) (s : String) (pick : Option String)
    (now : Nat)
    (hv : m.currentView = homeView ∨ m.currentView = fileSelectionView ∨
      m.currentView = subjectInputView ∨ m.currentView = confirmationView)
    (hs : s = "ctrl+c" ∨ s = "q") :
    update m (.key s pick now) = ({ m with quitting := true }, .quit) := by
  rcases hv with h | h | h | h <;> rcases hs with rfl | rfl <;>
    simp [update, updateKey, globalQuitThenDispatch, h, homeView,
      fileSelectionView, subjectInputView, confirmationView, progressView,
      quitView]

/-- An event that is not a key press never changes the screen, the chosen
paths, the subject, the confirmation outcome or the confirmation cursor. -/
theorem update_nonkey_frame (m : Model) (e : Msg) (h : isKeyMsg e = false) :
    (update m e).1.currentView = m.currentView ∧
    (update m e).1.csvFilePath = m.csvFilePath ∧
    (update m e).1.htmlFilePath = m.htmlFilePath ∧
    (update m e).1.subject = m.subject ∧
    (update m e).1.confirmed = m.confirmed ∧
    (update m e).1.cursor = m.cursor := by
  rcases e with ⟨s, pick, now⟩ | ⟨w, hh⟩ | now | t | _ | _
  · simp [isKeyMsg] at h
  all_goals
    simp only [update, dispatch, listUpdate, updateFileSelection,
      updateSubjectInput, textInputUpdate, updateConfirmation, updateProgress,
      filepickerUpdate, progressSetPercent] <;>
    (try split_ifs) <;> simp_all

/-- When the active screen has a handler in the dispatch switch, `dispatch`
runs it on the model with the updated menu list.  FileSelection case. -/
theorem dispatch_fs (msg : Msg) (m : Model)
    (h : m.currentView = fileSelectionView) :
    dispatch msg m =
      updateFileSelection msg { m with list := (listUpdate msg m.list).1 } := by
  simp [dispatch, h]

/-- Dispatch on the SubjectInput screen. -/
theorem dispatch_si (msg : Msg) (m : Model)
    (h : m.currentView = subjectInputView) :
    dispatch msg m =
      updateSubjectInput msg { m with list := (listUpdate msg m.list).1 } := by
  simp [dispatch, h, fileSelectionView, subjectInputView]

/-- Dispatch on the Confirmation screen. -/
theorem dispatch_cf (msg : Msg) (m : Model)
    (h : m.currentView = confirmationView) :
    dispatch msg m =
      updateConfirmation msg { m with list := (listUpdate msg m.list).1 } := by
  simp [dispatch, h, fileSelectionView, subjectInputView, confirmationView]

/-- Dispatch on the Progress screen. -/
theorem dispatch_pv (msg : Msg) (m : Model)
    (h : m.currentView = progressView) :
    dispatch msg m =
      updateProgress msg { m with list := (listUpdate msg m.list).1 } := by
  simp [dispatch, h, fileSelectionView, subjectInputView, confirmationView,
    progressView]

/-- Dispatch on a screen with no handler only updates the menu list. -/
theorem dispatch_other (msg : Msg) (m : Model)
    (hnfs : ¬ m.currentView = fileSelectionView)
    (hnsi : ¬ m.currentView = subjectInputView)
    (hncf : ¬ m.currentView = confirmationView)
    (hnpv : ¬ m.currentView = progressView) :
    dispatch msg m =
      ({ m with list := (listUpdate msg m.list).1 }, (listUpdate msg m.list).2) := by
  simp [dispatch, hnfs, hnsi, hncf, hnpv]

/-- The FileSelection handler preserves the wizard invariant. -/
theorem Inv_updateFileSelection (msg : Msg) (m : Model) (hI : Inv m)
    (hv : m.currentView = fileSelectionView) :
    Inv (updateFileSelection msg m).1 := by
  obtain ⟨h1, h2, h3⟩ := hI
  obtain ⟨g1, g2, g3, g4, g5, g6, g7, g8, g9, g10⟩ :=
    updateFileSelection_frame msg m
  refine ⟨fun hh => ?_, fun hh => ?_, fun hh => ?_⟩
  · rcases g8 with g | g
    · rw [g, hv] at hh
      exact absurd hh (by decide)
    · rw [g.1] at hh
      exact absurd hh (by decide)
  · by_cases hc : m.csvFilePath = ""
    · rcases g10 with g | g
      · rw [g] at hh
        exact absurd hc (h2 hh)
      · exact absurd hc g
    · rw [g9 hc]
      exact hc
  · rw [g2] at hh
    have hp := h3 hh
    rw [hv] at hp
    exact absurd hp (by decide)

/-- The SubjectInput handler preserves the wizard invariant. -/
theorem Inv_updateSubjectInput (msg : Msg) (m : Model) (hI : Inv m)
    (hv : m.currentView = subjectInputView) :
    Inv (updateSubjectInput msg m).1 := by
  obtain ⟨h1, h2, h3⟩ := hI
  obtain ⟨g1, g2, g3, g4, g5, g6, g7, g8⟩ := updateSubjectInput_frame msg m
  refine ⟨fun hh => ?_, fun hh => ?_, fun hh => ?_⟩
  · rcases g8 with g | g
    · rw [g, hv] at hh
      exact absurd hh (by decide)
    · rw [g] at hh
      exact absurd hh (by decide)
  · rw [g2] at hh
    rw [g1]
    exact h2 hh
  · rw [g3] at hh
    have hp := h3 hh
    rw [hv] at hp
    exact absurd hp (by decide)

/-- The Confirmation handler preserves the wizard invariant. -/
theorem Inv_updateConfirmation (msg : Msg) (m : Model) (hI : Inv m)
    (hv : m.currentView = confirmationView) :
    Inv (updateConfirmation msg m).1 := by
  obtain ⟨h1, h2, h3⟩ := hI
  have hcold : m.confirmed = false := by
    by_contra hc
    have hp := h3 (by simpa using hc)
    rw [hv] at hp
    exact absurd hp (by decide)
  rcases msg with ⟨s, pick, now⟩ | _ | _ | _ | _ | _
  · simp only [updateConfirmation]
    split_ifs with hd hw hu hw2 he hc0
    · exact ⟨h1, h2, h3⟩
    · exact ⟨h1, h2, h3⟩
    · exact ⟨h1, h2, h3⟩
    · exact ⟨h1, h2, h3⟩
    · -- enter with the cursor on "Yes": confirmed and off to Progress
      refine ⟨fun hh => ?_, fun hh => h2 hh, fun _ => rfl⟩
      exact absurd hh (show ¬ progressView = homeView by decide)
    · -- enter with the cursor on "No": confirmed := false, quit
      refine ⟨fun hh => h1 hh, fun hh => h2 hh, fun hh => absurd hh hc0⟩
    · exact ⟨h1, h2, h3⟩
  all_goals exact ⟨h1, h2, h3⟩

/-- The Progress handler preserves the wizard invariant. -/
theorem Inv_updateProgress (msg : Msg) (m : Model) (hI : Inv m)
    (hv : m.currentView = progressView) :
    Inv (updateProgress msg m).1 := by
  obtain ⟨h1, h2, h3⟩ := hI
  obtain ⟨g1, g2, g3, g4, g5, g6, g7, g8, g9, g10⟩ := updateProgress_frame msg m
  refine ⟨fun hh => ?_, fun hh => ?_, fun hh => ?_⟩
  · rw [g1, hv] at hh
    exact absurd hh (by decide)
  · rw [g3] at hh
    rw [g2]
    exact h2 hh
  · rw [g1]
    exact hv

/-- The global quit check followed by dispatch preserves the wizard
invariant. -/
theorem Inv_gqtd (s : String) (msg : Msg) (m : Model) (hI : Inv m) :
    Inv (globalQuitThenDispatch s msg m).1 := by
  obtain ⟨h1, h2, h3⟩ := hI
  unfold globalQuitThenDispatch
  split_ifs
  · exact ⟨h1, h2, h3⟩
  · by_cases hfs : m.currentView = fileSelectionView
    · rw [dispatch_fs msg m hfs]
      exact Inv_updateFileSelection _ _ ⟨h1, h2, h3⟩ hfs
    · by_cases hsi : m.currentView = subjectInputView
      · rw [dispatch_si msg m hsi]
        exact Inv_updateSubjectInput _ _ ⟨h1, h2, h3⟩ hsi
      · by_cases hcf : m.currentView = confirmationView
        · rw [dispatch_cf msg m hcf]
          exact Inv_updateConfirmation _ _ ⟨h1, h2, h3⟩ hcf
        · by_cases hpv : m.currentView = progressView
          · rw [dispatch_pv msg m hpv]
            exact Inv_updateProgress _ _ ⟨h1, h2, h3⟩ hpv
          · rw [dispatch_other msg m hfs hsi hcf hpv]
            exact ⟨h1, h2, h3⟩

/-- The wizard invariant is preserved by every event. -/
theorem update_preserves_Inv (m : Model) (e : Msg) (hI : Inv m) :
    Inv (update m e).1 := by
  obtain ⟨h1, h2, h3⟩ := hI
  by_cases hk : isKeyMsg e = false
  · obtain ⟨f1, f2, f3, f4, f5, f6⟩ := update_nonkey_frame m e hk
    refine ⟨fun hh => ?_, fun hh => ?_, fun hh => ?_⟩
    · rw [f1] at hh
      rw [f2]
      exact h1 hh
    · rw [f3] at hh
      rw [f2]
      exact h2 hh
    · rw [f5] at hh
      rw [f1]
      exact h3 hh
  · rcases e with ⟨s, pick, now⟩ | _ | _ | _ | _ | _ <;> simp [isKeyMsg] at hk
    -- key event: the per-view switch of model.Update
    show Inv (updateKey s pick now m).1
    by_cases hv0 : m.currentView = homeView
    · unfold updateKey
      rw [if_pos hv0]
      split_ifs with hs1 hs2 hs3 hidx
      · exact Inv_gqtd _ _ _ ⟨h1, h2, h3⟩
      · exact Inv_gqtd _ _ _ ⟨h1, h2, h3⟩
      · -- enter on the Upload item: Home → FileSelection
        refine ⟨fun hh => ?_, fun hh => h2 hh, fun hh => ?_⟩
        · exact absurd hh (show ¬ fileSelectionView = homeView by decide)
        · exact absurd (hv0.symm.trans (h3 hh)) (by decide)
      · -- enter on the Quit item
        exact ⟨h1, h2, h3⟩
      · exact Inv_gqtd _ _ _ ⟨h1, h2, h3⟩
    · by_cases hv5 : m.currentView = quitView
      · unfold updateKey
        rw [if_neg hv0, if_pos hv5]
        split_ifs
        · exact ⟨h1, h2, h3⟩
        · exact Inv_gqtd _ _ _ ⟨h1, h2, h3⟩
      · by_cases hv4 : m.currentView = progressView
        · have hu : updateKey s pick now m =
              ({ m with tag := m.tag + 1 },
                .exitTick debounceDuration (m.tag + 1)) :=
            update_key_progress m s pick now hv4
          rw [hu]
          refine ⟨fun hh => ?_, fun hh => h2 hh, fun _ => hv4⟩
          have hh' : m.currentView = homeView := hh
          exact absurd (hv4.symm.trans hh') (by decide)
        · have hu : updateKey s pick now m =
              globalQuitThenDispatch s (.key s pick now) m := by
            unfold updateKey
            rw [if_neg hv0, if_neg hv5, if_neg hv4]
          rw [hu]
          exact Inv_gqtd _ _ _ ⟨h1, h2, h3⟩

/-- Every reachable session satisfies the wizard invariant. -/
theorem reaches_Inv (m : Model) (h : Reaches m) : Inv m := by
  induction h with
  | init homeDir =>
      refine ⟨fun _ => rfl, fun hh => absurd rfl hh, fun hh => ?_⟩
      exact absurd hh (show ¬ (false = true) by decide)
  | step m e hm ih => exact update_preserves_Inv m e ih

/-- Delivering any event list keeps a session reachable. -/
theorem reaches_foldUpd (es : List Msg) (m : Model) (h : Reaches m) :
    Reaches (foldUpd m es) := by
  induction es generalizing m with
  | nil => exact h
  | cons e es ih => exact ih ((update m e).1) (Reaches.step m e h)

/-- Sessions are equal under `stage` when they agree on the active screen
and the CSV path. -/
theorem stage_congr (a b : Model) (h1 : a.currentView = b.currentView)
    (h2 : a.csvFilePath = b.csvFilePath) : stage a = stage b := by
  unfold stage
  rw [h1, h2]

/-- The CSV path, once non-empty, is never changed by any event. -/
theorem update_csv_stable (m : Model) (e : Msg)
    (hc : ¬ m.csvFilePath = "") :
    (update m e).1.csvFilePath = m.csvFilePath := by
  have hdisp : ∀ msg mm, ¬ mm.csvFilePath = "" →
      (dispatch msg mm).1.csvFilePath = mm.csvFilePath := by
    intro msg mm hmc
    by_cases hfs : mm.currentView = fileSelectionView
    · rw [dispatch_fs msg mm hfs]
      exact (updateFileSelection_frame msg _).2.2.2.2.2.2.2.2.1 hmc
    · by_cases hsi : mm.currentView = subjectInputView
      · rw [dispatch_si msg mm hsi]
        exact (updateSubjectInput_frame msg _).1
      · by_cases hcf : mm.currentView = confirmationView
        · rw [dispatch_cf msg mm hcf]
          exact (updateConfirmation_frame msg _).1
        · by_cases hpv : mm.currentView = progressView
          · rw [dispatch_pv msg mm hpv]
            exact (updateProgress_frame msg _).2.1
          · rw [dispatch_other msg mm hfs hsi hcf hpv]
  have hg : ∀ s msg (mm : Model), mm.csvFilePath = m.csvFilePath →
      (globalQuitThenDispatch s msg mm).1.csvFilePath = m.csvFilePath := by
    intro s msg mm hmc
    unfold globalQuitThenDispatch
    split_ifs
    · exact hmc
    · rw [hdisp msg mm (by rw [hmc]; exact hc)]
      exact hmc
  rcases e with ⟨s, pick, now⟩ | ⟨w, hh⟩ | now | t | _ | _
  · show (updateKey s pick now m).1.csvFilePath = m.csvFilePath
    unfold updateKey
    split_ifs <;> first | rfl | (exact hg _ _ _ rfl)
  · exact hdisp _ _ hc
  · exact hdisp _ _ hc
  · show (if m.currentView = progressView ∧ t = m.tag then
        ({ m with quitting := true }, Cmd.quit)
      else dispatch (Msg.exit t) m).1.csvFilePath = m.csvFilePath
    split_ifs
    · rfl
    · exact hdisp _ _ hc
  · rfl
  · exact hdisp _ _ hc

/-- The FileSelection handler keeps the wizard at its stage or advances it
by one (a CSV pick 1→2, an HTML pick 2→3). -/
theorem stage_updateFileSelection (msg : Msg) (mm : Model)
    (hv : mm.currentView = fileSelectionView) :
    stage (updateFileSelection msg mm).1 = stage mm ∨
      stage (updateFileSelection msg mm).1 = stage mm + 1 := by
  obtain ⟨g1, g2, g3, g4, g5, g6, g7, g8, g9, g10⟩ :=
    updateFileSelection_frame msg mm
  by_cases hcsv : mm.csvFilePath = ""
  · have hs1 : stage mm = 1 := by
      simp [stage, hv, hcsv, homeView, fileSelectionView]
    rcases g8 with g | g
    · by_cases hcsv2 : (updateFileSelection msg mm).1.csvFilePath = ""
      · refine Or.inl ?_
        rw [hs1]
        simp [stage, g, hv, hcsv2, homeView, fileSelectionView]
      · refine Or.inr ?_
        rw [hs1]
        simp [stage, g, hv, hcsv2, homeView, fileSelectionView]
    · exact absurd hcsv g.2
  · have hs2 : stage mm = 2 := by
      simp [stage, hv, hcsv, homeView, fileSelectionView]
    have hcv := g9 hcsv
    rcases g8 with g | g
    · exact Or.inl (stage_congr _ _ g hcv)
    · refine Or.inr ?_
      rw [hs2]
      simp [stage, g.1, homeView, fileSelectionView, subjectInputView]

/-- The SubjectInput handler keeps the wizard at stage 3 or advances it to
Confirmation (stage 4). -/
theorem stage_updateSubjectInput (msg : Msg) (mm : Model)
    (hv : mm.currentView = subjectInputView) :
    stage (updateSubjectInput msg mm).1 = stage mm ∨
      stage (updateSubjectInput msg mm).1 = stage mm + 1 := by
  obtain ⟨g1, g2, g3, g4, g5, g6, g7, g8⟩ := updateSubjectInput_frame msg mm
  have hs3 : stage mm = 3 := by
    simp [stage, hv, homeView, fileSelectionView, subjectInputView]
  rcases g8 with g | g
  · exact Or.inl (stage_congr _ _ g g1)
  · refine Or.inr ?_
    rw [hs3]
    simp [stage, g, g1, homeView, fileSelectionView, subjectInputView,
      confirmationView]

/-- The Confirmation handler keeps the wizard at stage 4 or advances it to
Progress (stage 5). -/
theorem stage_updateConfirmation (msg : Msg) (mm : Model)
    (hv : mm.currentView = confirmationView) :
    stage (updateConfirmation msg mm).1 = stage mm ∨
      stage (updateConfirmation msg mm).1 = stage mm + 1 := by
  obtain ⟨g1, g2, g3, g4, g5, g6, g7, g8⟩ := updateConfirmation_frame msg mm
  have hs4 : stage mm = 4 := by
    simp [stage, hv, homeView, fileSelectionView, subjectInputView,
      confirmationView]
  rcases g8 with g | g
  · exact Or.inl (stage_congr _ _ g g1)
  · refine Or.inr ?_
    rw [hs4]
    simp [stage, g, homeView, fileSelectionView, subjectInputView,
      confirmationView, progressView]

/-- One event moves the wizard either zero or one step forward along the
linear screen path. -/
theorem stage_step (m : Model) (hI : Inv m) (e : Msg) :
    stage (update m e).1 = stage m ∨ stage (update m e).1 = stage m + 1 := by
  obtain ⟨h1, h2, h3⟩ := hI
  by_cases hk : isKeyMsg e = false
  · obtain ⟨f1, f2, f3, f4, f5, f6⟩ := update_nonkey_frame m e hk
    exact Or.inl (stage_congr _ _ f1 f2)
  · rcases e with ⟨s, pick, now⟩ | _ | _ | _ | _ | _ <;> simp [isKeyMsg] at hk
    show stage (updateKey s pick now m).1 = stage m ∨
      stage (updateKey s pick now m).1 = stage m + 1
    have hgq : ∀ mm : Model, mm.currentView = m.currentView →
        mm.csvFilePath = m.csvFilePath →
        stage (globalQuitThenDispatch s (.key s pick now) mm).1 = stage m ∨
          stage (globalQuitThenDispatch s (.key s pick now) mm).1 =
            stage m + 1 := by
      intro mm hmv hmc
      have hsm : stage mm = stage m := stage_congr _ _ hmv hmc
      unfold globalQuitThenDispatch
      split_ifs
      · exact Or.inl hsm
      · by_cases hfs : mm.currentView = fileSelectionView
        · rw [dispatch_fs _ _ hfs]
          have h := stage_updateFileSelection (.key s pick now)
            { mm with list := (listUpdate (.key s pick now) mm.list).1 } hfs
          rw [show stage { mm with
              list := (listUpdate (.key s pick now) mm.list).1 } = stage m
            from hsm ▸ stage_congr _ _ rfl rfl] at h
          exact h
        · by_cases hsi : mm.currentView = subjectInputView
          · rw [dispatch_si _ _ hsi]
            have h := stage_updateSubjectInput (.key s pick now)
              { mm with list := (listUpdate (.key s pick now) mm.list).1 } hsi
            rw [show stage { mm with
                list := (listUpdate (.key s pick now) mm.list).1 } = stage m
              from hsm ▸ stage_congr _ _ rfl rfl] at h
            exact h
          · by_cases hcf : mm.currentView = confirmationView
            · rw [dispatch_cf _ _ hcf]
              have h := stage_updateConfirmation (.key s pick now)
                { mm with list := (listUpdate (.key s pick now) mm.list).1 } hcf
              rw [show stage { mm with
                  list := (listUpdate (.key s pick now) mm.list).1 } = stage m
                from hsm ▸ stage_congr _ _ rfl rfl] at h
              exact h
            · by_cases hpv : mm.currentView = progressView
              · rw [dispatch_pv _ _ hpv]
                obtain ⟨g1, g2, g3, g4, g5, g6, g7, g8, g9, g10⟩ :=
                  updateProgress_frame (.key s pick now)
                    { mm with list := (listUpdate (.key s pick now) mm.list).1 }
                refine Or.inl ?_
                rw [← hsm]
                exact stage_congr _ _ g1 g2
              · rw [dispatch_other _ _ hfs hsi hcf hpv]
                exact Or.inl hsm
    by_cases hv0 : m.currentView = homeView
    · unfold updateKey
      rw [if_pos hv0]
      have hs0 : stage m = 0 := by simp [stage, hv0]
      split_ifs with hs1 hs2 hs3 hidx
      · exact hgq _ rfl rfl
      · exact hgq _ rfl rfl
      · -- enter on Upload: Home (0) → FileSelection stage A (1)
        refine Or.inr ?_
        rw [hs0]
        simp [stage, h1 hv0, homeView, fileSelectionView]
      · exact Or.inl (stage_congr _ _ rfl rfl)
      · exact hgq _ rfl rfl
    · by_cases hv5 : m.currentView = quitView
      · unfold updateKey
        rw [if_neg hv0, if_pos hv5]
        split_ifs
        · exact Or.inl (stage_congr _ _ rfl rfl)
        · exact hgq _ rfl rfl
      · by_cases hv4 : m.currentView = progressView
        · have hu : updateKey s pick now m =
              ({ m with tag := m.tag + 1 },
                Cmd.exitTick debounceDuration (m.tag + 1)) :=
            update_key_progress m s pick now hv4
          rw [hu]
          exact Or.inl (stage_congr _ _ rfl rfl)
        · have hu : updateKey s pick now m =
              globalQuitThenDispatch s (.key s pick now) m := by
            unfold updateKey
            rw [if_neg hv0, if_neg hv5, if_neg hv4]
          rw [hu]
          exact hgq _ rfl rfl

/-- Once the session is confirmed, one further event cannot reset the
flag (a confirmed session is on the Progress screen, whose handlers never
touch `confirmed`). -/
theorem confirmed_persist (m : Model) (hI : Inv m) (hc : m.confirmed = true)
    (e : Msg) : (update m e).1.confirmed = true := by
  have hv := hI.2.2 hc
  by_cases hk : isKeyMsg e = false
  · rw [(update_nonkey_frame m e hk).2.2.2.2.1]
    exact hc
  · rcases e with ⟨s, pick, now⟩ | _ | _ | _ | _ | _ <;> simp [isKeyMsg] at hk
    show (updateKey s pick now m).1.confirmed = true
    have hu : updateKey s pick now m =
        ({ m with tag := m.tag + 1 },
          Cmd.exitTick debounceDuration (m.tag + 1)) :=
      update_key_progress m s pick now hv
    rw [hu]
    exact hc

/-- A confirmed reachable session stays confirmed through the rest of the
run, whether or not the loop stops early. -/
theorem runLoop_confirmed (es : List Msg) (m : Model) (h : Reaches m)
    (hc : m.confirmed = true) : (runLoop m es).confirmed = true := by
  induction es generalizing m with
  | nil => exact hc
  | cons e es ih =>
      have hc' := confirmed_persist m (reaches_Inv m h) hc e
      show (if containsQuit (update m e).2 then (update m e).1
          else runLoop (update m e).1 es).confirmed = true
      split_ifs
      · exact hc'
      · exact ih ((update m e).1) (Reaches.step m e h) hc'

/-- The success summary can never coincide with the cancellation line. -/
theorem success_ne_cancel (a b c : String) :
    "Emails sent using CSV file: " ++ a ++ ", HTML template: " ++ b ++
      ", and subject: " ++ c ++ "\n" ≠ "Operation cancelled.\n" := by
  intro h
  have h2 := congrArg String.data h
  simp only [String.data_append] at h2
  have h3 := congrArg (fun l => l.headD ' ') h2
  simp at h3

/-- A tick on the Progress screen with five seconds already elapsed returns
the unchanged session and `tea.Quit`. -/
theorem updateProgress_tick_quit (m : Model) (st now : Nat)
    (h : m.startTime = some st) (hge : 5 * second ≤ now - st) :
    updateProgress (Msg.tick now) m = (m, Cmd.quit) := by
  simp [updateProgress, h, hge]

/-- A tick on the Progress screen before the five-second mark records the
elapsed fraction in the bar and re-arms the timer with the animation
command. -/
theorem updateProgress_tick_run (m : Model) (st now : Nat)
    (h : m.startTime = some st) (hlt : now - st < 5 * second) :
    updateProgress (Msg.tick now) m =
      ({ m with progress :=
          { m.progress with targetPercent := clamp01 (elapsedFraction (now - st)) } },
        Cmd.batch [tickCmd, Cmd.setPercentAnim]) := by
  simp [updateProgress, h, Nat.not_le.mpr hlt, progressSetPercent,
    elapsedFraction]

/-- The first tick on the Progress screen records its instant as the start
time. -/
theorem updateProgress_tick_first (m : Model) (now : Nat)
    (h : m.startTime = Option.none) :
    (updateProgress (Msg.tick now) m).1.startTime = some now := by
  simp only [updateProgress, h, Option.isNone_none, if_true]
  split_ifs <;> rfl

/-- The elapsed fraction is never negative. -/
theorem elapsedFraction_nonneg (e : Nat) : 0 ≤ elapsedFraction e := by
  unfold elapsedFraction
  positivity

/-- Before the five-second mark the elapsed fraction is below one. -/
theorem elapsedFraction_lt_one (e : Nat) (h : e < 5 * second) :
    elapsedFraction e < 1 := by
  unfold elapsedFraction
  rw [div_lt_one (by norm_num [second])]
  exact_mod_cast h

/-- The `SetPercent` clamp is the identity on fractions already in range. -/
theorem clamp01_eq_self (x : ℚ) (h0 : 0 ≤ x) (h1 : x ≤ 1) :
    clamp01 x = x := by
  unfold clamp01
  rw [min_eq_right h1, max_eq_right h0]

/-- After any event the confirmation cursor is still one of the two choice
indices. -/
theorem update_cursor_mem (m : Model) (e : Msg)
    (h : m.cursor = 0 ∨ m.cursor = 1) :
    (update m e).1.cursor = 0 ∨ (update m e).1.cursor = 1 := by
  by_cases hk : isKeyMsg e = false
  · rw [(update_nonkey_frame m e hk).2.2.2.2.2]
    exact h
  · rcases e with ⟨s, pick, now⟩ | _ | _ | _ | _ | _ <;> simp [isKeyMsg] at hk
    have hdisp : ∀ mm : Model, mm.cursor = 0 ∨ mm.cursor = 1 →
        (dispatch (Msg.key s pick now) mm).1.cursor = 0 ∨
          (dispatch (Msg.key s pick now) mm).1.cursor = 1 := by
      intro mm hmm
      by_cases hfs : mm.currentView = fileSelectionView
      · rw [dispatch_fs _ _ hfs]
        rw [(updateFileSelection_frame _ _).2.2.1]
        exact hmm
      · by_cases hsi : mm.currentView = subjectInputView
        · rw [dispatch_si _ _ hsi]
          rw [(updateSubjectInput_frame _ _).2.2.2.1]
          exact hmm
        · by_cases hcf : mm.currentView = confirmationView
          · rw [dispatch_cf _ _ hcf]
            exact updateConfirmation_cursor_mem _ _ hmm
          · by_cases hpv : mm.currentView = progressView
            · rw [dispatch_pv _ _ hpv]
              rw [(updateProgress_frame _ _).2.2.2.2.2.1]
              exact hmm
            · rw [dispatch_other _ _ hfs hsi hcf hpv]
              exact hmm
    have hg : ∀ mm : Model, mm.cursor = 0 ∨ mm.cursor = 1 →
        (globalQuitThenDispatch s (Msg.key s pick now) mm).1.cursor = 0 ∨
          (globalQuitThenDispatch s (Msg.key s pick now) mm).1.cursor = 1 := by
      intro mm hmm
      unfold globalQuitThenDispatch
      split_ifs
      · exact hmm
      · exact hdisp mm hmm
    show (updateKey s pick now m).1.cursor = 0 ∨
      (updateKey s pick now m).1.cursor = 1
    unfold updateKey
    split_ifs <;> first | (exact h) | (exact hg _ h)

/-- C1: for every sequence of input events, the wizard's screen only moves
forward along the linear path Home (0), FileSelection stage A (1),
FileSelection stage B (2), SubjectInput (3), Confirmation (4), Progress (5):
each event leaves the stage unchanged or advances it by exactly one, so no
screen is skipped, repeated or visited out of order (in particular this holds
for sequences without a quit key press); and the canonical non-quitting demo
run visits exactly the six stages in order. -/
theorem claim1_screen_order :
    (∀ m : Model, Reaches m → ∀ e : Msg,
        stage (update m e).1 = stage m ∨
          stage (update m e).1 = stage m + 1) ∧
    (List.scanl (fun m e => (update m e).1) (initialModel "/home/u")
        demoEvents).map stage = [0, 1, 2, 3, 4, 5] := by
  constructor
  · intro m h e
    exact stage_step m (reaches_Inv m h) e
  · decide

/-- Witness for C1: at the initial session, the Upload enter key advances the
stage by at most one. -/
theorem claim1_screen_order_witness :
    stage (update (initialModel "/h") (Msg.key "enter" Option.none 0)).1 =
        stage (initialModel "/h") ∨
      stage (update (initialModel "/h") (Msg.key "enter" Option.none 0)).1 =
        stage (initialModel "/h") + 1 :=
  claim1_screen_order.1 (initialModel "/h") (Reaches.init "/h")
    (Msg.key "enter" Option.none 0)

/-- C2 is false as stated: in the reachable Progress-screen session below,
delivering "q" neither sets `quitting` nor stops the loop — the Progress
branch of the per-view key switch intercepts the key before the global quit
check is reached. -/
theorem claim2_counterexample :
    Reaches progressModel ∧
    progressModel.currentView = progressView ∧
    (update progressModel (Msg.key "q" Option.none 0)).1.quitting = false ∧
    containsQuit (update progressModel (Msg.key "q" Option.none 0)).2 =
      false := by
  refine ⟨reaches_foldUpd demoEvents (initialModel "/h") (Reaches.init "/h"),
    ?_, ?_, ?_⟩ <;> decide

/-- C2 (amended): on the Home, FileSelection, SubjectInput and Confirmation
screens, "q"/"ctrl+c" reach the global quit binding before the screen's own
handler: they set `quitting` and stop the loop.  On the Progress screen the
per-view key handler intercepts every key first, incrementing the debounce
tag and scheduling an `exitMsg` five seconds later; only that `exitMsg`,
arriving with the current tag, sets `quitting` and stops the loop. -/
theorem claim2_amended :
    (∀ (m : Model) (s : String) (pick : Option String) (now : Nat),
        (m.currentView = homeView ∨ m.currentView = fileSelectionView ∨
          m.currentView = subjectInputView ∨
          m.currentView = confirmationView) →
        (s = "ctrl+c" ∨ s = "q") →
        update m (Msg.key s pick now) =
          ({ m with quitting := true }, Cmd.quit)) ∧
    (∀ (m : Model) (s : String) (pick : Option String) (now : Nat),
        m.currentView = progressView →
        update m (Msg.key s pick now) =
          ({ m with tag := m.tag + 1 },
            Cmd.exitTick debounceDuration (m.tag + 1))) ∧
    (∀ m : Model, m.currentView = progressView →
        update m (Msg.exit m.tag) = ({ m with quitting := true }, Cmd.quit)) :=
  ⟨fun m s pick now hv hs => update_key_quit m s pick now hv hs,
   fun m s pick now hv => update_key_progress m s pick now hv,
   fun m hv => by simp [update, hv]⟩

/-- Witness for C2 (amended) at concrete sessions: "q" on the Home screen
quits at once; on the Progress screen it only re-tags and schedules the
delayed exit, which then quits. -/
theorem claim2_amended_witness :
    update (initialModel "/h") (Msg.key "q" Option.none 0) =
      ({ initialModel "/h" with quitting := true }, Cmd.quit) ∧
    update progressModel (Msg.key "q" Option.none 3) =
      ({ progressModel with tag := progressModel.tag + 1 },
        Cmd.exitTick debounceDuration (progressModel.tag + 1)) ∧
    update progressModel (Msg.exit progressModel.tag) =
      ({ progressModel with quitting := true }, Cmd.quit) :=
  ⟨claim2_amended.1 (initialModel "/h") "q" Option.none 0 (Or.inl rfl)
      (Or.inr rfl),
   claim2_amended.2.1 progressModel "q" Option.none 3 (by decide),
   claim2_amended.2.2 progressModel (by decide)⟩

/-- C3: after the loop ends the program prints exactly one of two lines:
the success line built from the final session's CSV path, HTML path and
subject when `confirmed` is true, and "Operation cancelled." in every other
case; the two end-to-end scenarios print the expected literal lines. -/
theorem claim3_final_output :
    (∀ (homeDir : String) (events : List Msg),
        ((runProgram homeDir events).1.confirmed = true ∧
          (runProgram homeDir events).2 =
            "Emails sent using CSV file: " ++
              (runProgram homeDir events).1.csvFilePath ++
              ", HTML template: " ++
              (runProgram homeDir events).1.htmlFilePath ++
              ", and subject: " ++ (runProgram homeDir events).1.subject ++
              "\n") ∨
        ((runProgram homeDir events).1.confirmed = false ∧
          (runProgram homeDir events).2 = "Operation cancelled.\n")) ∧
    (runProgram "/home/u" scenario1Events).2 =
      "Emails sent using CSV file: /home/u/data.csv, HTML template: /home/u/tpl.html, and subject: Welcome\n" ∧
    (runProgram "/home/u" scenario2Events).2 = "Operation cancelled.\n" := by
  refine ⟨fun homeDir events => ?_, by decide, by decide⟩
  simp only [runProgram, finalOutput]
  by_cases hc : (runLoop (initialModel homeDir) events).confirmed = true
  · left
    simp [hc]
  · right
    rw [Bool.not_eq_true] at hc
    simp [hc]

/-- Witness for C3: the empty run is cancelled. -/
theorem claim3_final_output_witness :
    ((runProgram "/h" []).1.confirmed = true ∧
      (runProgram "/h" []).2 =
        "Emails sent using CSV file: " ++ (runProgram "/h" []).1.csvFilePath ++
          ", HTML template: " ++ (runProgram "/h" []).1.htmlFilePath ++
          ", and subject: " ++ (runProgram "/h" []).1.subject ++ "\n") ∨
    ((runProgram "/h" []).1.confirmed = false ∧
      (runProgram "/h" []).2 = "Operation cancelled.\n") :=
  claim3_final_output.1 "/h" []

/-- C4: on the Progress screen, the first tick records its instant as the
start time; a tick whose elapsed time is at least five seconds returns
`tea.Quit` and the loop stops right there, dropping the remaining events
(so termination is requested exactly once); a tick with elapsed time below
five seconds sets the bar's target fraction to elapsed divided by five
seconds — a value the `SetPercent` clamp to [0,1] leaves unchanged, and
which lies in [0,1) — and re-arms the timer with the 100 ms interval without
requesting termination. -/
theorem claim4_progress_tick (m : Model) (now : Nat)
    (hv : m.currentView = progressView) :
    (m.startTime = Option.none →
        (update m (Msg.tick now)).1.startTime = some now) ∧
    (∀ st, m.startTime = some st → 5 * second ≤ now - st →
        (update m (Msg.tick now)).2 = Cmd.quit ∧
        ∀ rest : List Msg,
          runLoop m (Msg.tick now :: rest) = (update m (Msg.tick now)).1) ∧
    (∀ st, m.startTime = some st → now - st < 5 * second →
        (update m (Msg.tick now)).1.progress.targetPercent =
          elapsedFraction (now - st) ∧
        0 ≤ elapsedFraction (now - st) ∧ elapsedFraction (now - st) < 1 ∧
        clamp01 (elapsedFraction (now - st)) = elapsedFraction (now - st) ∧
        (update m (Msg.tick now)).2 =
          Cmd.batch [Cmd.tick (100 * millisecond), Cmd.setPercentAnim] ∧
        containsQuit (update m (Msg.tick now)).2 = false) := by
  have hund : update m (Msg.tick now) = updateProgress (Msg.tick now) m :=
    dispatch_pv (Msg.tick now) m hv
  refine ⟨fun h0 => ?_, fun st hst hge => ?_, fun st hst hlt => ?_⟩
  · rw [hund]
    exact updateProgress_tick_first m now h0
  · have hq : update m (Msg.tick now) = (m, Cmd.quit) := by
      rw [hund]
      exact updateProgress_tick_quit m st now hst hge
    refine ⟨by rw [hq], fun rest => ?_⟩
    show (if containsQuit (update m (Msg.tick now)).2 then
        (update m (Msg.tick now)).1
      else runLoop (update m (Msg.tick now)).1 rest) =
        (update m (Msg.tick now)).1
    rw [hq]
    simp [containsQuit]
  · have hr : update m (Msg.tick now) =
        ({ m with progress :=
            { m.progress with
                targetPercent := clamp01 (elapsedFraction (now - st)) } },
          Cmd.batch [tickCmd, Cmd.setPercentAnim]) := by
      rw [hund]
      exact updateProgress_tick_run m st now hst hlt
    have h0 := elapsedFraction_nonneg (now - st)
    have h1 := elapsedFraction_lt_one (now - st) hlt
    have hcl := clamp01_eq_self _ h0 (le_of_lt h1)
    rw [hr]
    exact ⟨hcl, h0, h1, hcl, rfl, rfl⟩

/-- Witness for C4: on the ticked Progress session, a tick one second in
yields the fraction 1/5 of the way, in range, with the timer re-armed. -/
theorem claim4_progress_tick_witness :
    (update tickedModel (Msg.tick second)).1.progress.targetPercent =
        elapsedFraction (second - 0) ∧
      0 ≤ elapsedFraction (second - 0) ∧
      elapsedFraction (second - 0) < 1 ∧
      clamp01 (elapsedFraction (second - 0)) = elapsedFraction (second - 0) ∧
      (update tickedModel (Msg.tick second)).2 =
        Cmd.batch [Cmd.tick (100 * millisecond), Cmd.setPercentAnim] ∧
      containsQuit (update tickedModel (Msg.tick second)).2 = false :=
  (claim4_progress_tick tickedModel second (by decide)).2.2 0 (by decide)
    (by decide)

/-- C5: on the Confirmation screen, enter with the cursor at index 0 ("Yes")
sets `confirmed`, changes the active screen to Progress and arms the
repeating 100 ms timer; enter with the cursor at index 1 ("No") clears
`confirmed` and requests loop termination directly, with no screen change. -/
theorem claim5_confirm_enter (m : Model) (pick : Option String) (now : Nat)
    (hv : m.currentView = confirmationView) :
    (m.cursor = 0 →
        update m (Msg.key "enter" pick now) =
          ({ m with confirmed := true, currentView := progressView },
            Cmd.tick (100 * millisecond))) ∧
    (m.cursor = 1 →
        update m (Msg.key "enter" pick now) =
          ({ m with confirmed := false }, Cmd.quit)) := by
  have hnh : ¬ m.currentView = homeView := by rw [hv]; decide
  have hnq : ¬ m.currentView = quitView := by rw [hv]; decide
  have hnp : ¬ m.currentView = progressView := by rw [hv]; decide
  have hchain : update m (Msg.key "enter" pick now) =
      updateConfirmation (Msg.key "enter" pick now)
        { m with list := (listUpdate (Msg.key "enter" pick now) m.list).1 } := by
    have h1 : update m (Msg.key "enter" pick now) =
        globalQuitThenDispatch "enter" (Msg.key "enter" pick now) m := by
      simp only [update, updateKey]
      rw [if_neg hnh, if_neg hnq, if_neg hnp]
    rw [h1]
    unfold globalQuitThenDispatch
    rw [if_neg (by decide), dispatch_cf _ _ hv]
  constructor <;> intro hc <;> rw [hchain] <;>
    simp [updateConfirmation, listUpdate, hc, tickCmd]

/-- Witness for C5 at the reachable Confirmation session of the demo run. -/
theorem claim5_confirm_enter_witness :
    (foldUpd (initialModel "/h") (List.take 4 demoEvents)).cursor = 0 ∧
    update (foldUpd (initialModel "/h") (List.take 4 demoEvents))
        (Msg.key "enter" Option.none 0) =
      ({ foldUpd (initialModel "/h") (List.take 4 demoEvents) with
          confirmed := true, currentView := progressView },
        Cmd.tick (100 * millisecond)) :=
  ⟨by decide,
    (claim5_confirm_enter (foldUpd (initialModel "/h") (List.take 4 demoEvents))
      Option.none 0 (by decide)).1 (by decide)⟩

/-- The enter key is not a character: the Text Field's value is unchanged by
its delegation. -/
theorem textInputUpdate_enter (pick : Option String) (now : Nat) (v : String) :
    textInputUpdate (Msg.key "enter" pick now) v = (v, Cmd.sub) := by
  simp only [textInputUpdate]
  rw [if_neg (show ¬ (isCharKey "enter" = true) by decide)]

/-- C6: the SubjectInput handler delegates every event to the Text Field
first; for the enter key, the committed subject is the Text Field's value as
it stands immediately after that delegation — the confirming key itself adds
no character — and the active screen changes to Confirmation. -/
theorem claim6_subject_commit :
    (∀ (msg : Msg) (m : Model),
        (updateSubjectInput msg m).1.textInput =
          (textInputUpdate msg m.textInput).1) ∧
    (∀ (m : Model) (pick : Option String) (now : Nat),
        m.currentView = subjectInputView →
        (textInputUpdate (Msg.key "enter" pick now) m.textInput).1 =
            m.textInput ∧
          (update m (Msg.key "enter" pick now)).1.subject = m.textInput ∧
          (update m (Msg.key "enter" pick now)).1.currentView =
            confirmationView) := by
  constructor
  · intro msg m
    rcases msg with ⟨s, pick, now⟩ | _ | _ | _ | _ | _ <;>
      simp only [updateSubjectInput, textInputUpdate] <;>
      (try split_ifs) <;> rfl
  · intro m pick now hv
    have hnh : ¬ m.currentView = homeView := by rw [hv]; decide
    have hnq : ¬ m.currentView = quitView := by rw [hv]; decide
    have hnp : ¬ m.currentView = progressView := by rw [hv]; decide
    have hchain : update m (Msg.key "enter" pick now) =
        updateSubjectInput (Msg.key "enter" pick now)
          { m with list := (listUpdate (Msg.key "enter" pick now) m.list).1 } := by
      have h1 : update m (Msg.key "enter" pick now) =
          globalQuitThenDispatch "enter" (Msg.key "enter" pick now) m := by
        simp only [update, updateKey]
        rw [if_neg hnh, if_neg hnq, if_neg hnp]
      rw [h1]
      unfold globalQuitThenDispatch
      rw [if_neg (by decide), dispatch_si _ _ hv]
    refine ⟨by rw [textInputUpdate_enter], ?_, ?_⟩ <;> rw [hchain] <;>
      simp [updateSubjectInput, textInputUpdate_enter]

/-- Witness for C6 at the reachable SubjectInput session of the demo run
after typing a character. -/
theorem claim6_subject_commit_witness :
    (textInputUpdate (Msg.key "enter" Option.none 0)
        (foldUpd (initialModel "/h")
          (List.take 3 demoEvents ++ [Msg.key "W" Option.none 0])).textInput).1 =
      (foldUpd (initialModel "/h")
        (List.take 3 demoEvents ++ [Msg.key "W" Option.none 0])).textInput ∧
    (update (foldUpd (initialModel "/h")
          (List.take 3 demoEvents ++ [Msg.key "W" Option.none 0]))
        (Msg.key "enter" Option.none 0)).1.subject =
      (foldUpd (initialModel "/h")
        (List.take 3 demoEvents ++ [Msg.key "W" Option.none 0])).textInput ∧
    (update (foldUpd (initialModel "/h")
          (List.take 3 demoEvents ++ [Msg.key "W" Option.none 0]))
        (Msg.key "enter" Option.none 0)).1.currentView = confirmationView :=
  claim6_subject_commit.2
    (foldUpd (initialModel "/h")
      (List.take 3 demoEvents ++ [Msg.key "W" Option.none 0]))
    Option.none 0 (by decide)

/-- C7: in every reachable session, a non-empty HTML path implies a
non-empty CSV path (the HTML path is only ever assigned while the CSV path
is set), and once set the CSV path is never changed by any event. -/
theorem claim7_paths_invariant :
    (∀ m : Model, Reaches m → m.htmlFilePath ≠ "" → m.csvFilePath ≠ "") ∧
    (∀ (m : Model) (e : Msg), m.csvFilePath ≠ "" →
        (update m e).1.csvFilePath = m.csvFilePath) :=
  ⟨fun m h => (reaches_Inv m h).2.1,
   fun m e hc => update_csv_stable m e hc⟩

/-- Witness for C7 at the reachable session that has both files picked. -/
theorem claim7_paths_invariant_witness :
    (foldUpd (initialModel "/h") (List.take 3 demoEvents)).csvFilePath ≠ "" ∧
    (update (foldUpd (initialModel "/h") (List.take 3 demoEvents))
        (Msg.key "x" Option.none 0)).1.csvFilePath =
      (foldUpd (initialModel "/h") (List.take 3 demoEvents)).csvFilePath :=
  ⟨claim7_paths_invariant.1 (foldUpd (initialModel "/h") (List.take 3 demoEvents))
      (reaches_foldUpd (List.take 3 demoEvents) (initialModel "/h")
        (Reaches.init "/h"))
      (by decide),
   claim7_paths_invariant.2 (foldUpd (initialModel "/h") (List.take 3 demoEvents))
      (Msg.key "x" Option.none 0) (by decide)⟩

/-- C8: on the Confirmation screen the cursor wraps around the two-item
choice — "down" at index 1 yields 0 and "up" at index 0 yields 1 — and
delivering any event whatsoever keeps the cursor in {0, 1}. -/
theorem claim8_cursor_wrap :
    (∀ (m : Model) (pick : Option String) (now : Nat),
        m.currentView = confirmationView →
        (m.cursor = 1 →
          (update m (Msg.key "down" pick now)).1.cursor = 0) ∧
        (m.cursor = 0 →
          (update m (Msg.key "up" pick now)).1.cursor = 1)) ∧
    (∀ (m : Model) (e : Msg), m.cursor = 0 ∨ m.cursor = 1 →
        (update m e).1.cursor = 0 ∨ (update m e).1.cursor = 1) := by
  constructor
  · intro m pick now hv
    have hnh : ¬ m.currentView = homeView := by rw [hv]; decide
    have hnq : ¬ m.currentView = quitView := by rw [hv]; decide
    have hnp : ¬ m.currentView = progressView := by rw [hv]; decide
    constructor <;> intro hc
    · have hchain : update m (Msg.key "down" pick now) =
          updateConfirmation (Msg.key "down" pick now)
            { m with list := (listUpdate (Msg.key "down" pick now) m.list).1 } := by
        have h1 : update m (Msg.key "down" pick now) =
            globalQuitThenDispatch "down" (Msg.key "down" pick now) m := by
          simp only [update, updateKey]
          rw [if_neg hnh, if_neg hnq, if_neg hnp]
        rw [h1]
        unfold globalQuitThenDispatch
        rw [if_neg (by decide), dispatch_cf _ _ hv]
      rw [hchain]
      simp [updateConfirmation, hc]
    · have hchain : update m (Msg.key "up" pick now) =
          updateConfirmation (Msg.key "up" pick now)
            { m with list := (listUpdate (Msg.key "up" pick now) m.list).1 } := by
        have h1 : update m (Msg.key "up" pick now) =
            globalQuitThenDispatch "up" (Msg.key "up" pick now) m := by
          simp only [update, updateKey]
          rw [if_neg hnh, if_neg hnq, if_neg hnp]
        rw [h1]
        unfold globalQuitThenDispatch
        rw [if_neg (by decide), dispatch_cf _ _ hv]
      rw [hchain]
      simp [updateConfirmation, hc]
  · exact fun m e h => update_cursor_mem m e h

/-- Witness for C8 at the reachable Confirmation session, cursor moved to
"No" first. -/
theorem claim8_cursor_wrap_witness :
    (foldUpd (initialModel "/h")
        (List.take 4 demoEvents ++ [Msg.key "down" Option.none 0])).cursor = 1 ∧
    (update (foldUpd (initialModel "/h")
          (List.take 4 demoEvents ++ [Msg.key "down" Option.none 0]))
        (Msg.key "down" Option.none 0)).1.cursor = 0 :=
  ⟨by decide,
    (claim8_cursor_wrap.1
      (foldUpd (initialModel "/h")
        (List.take 4 demoEvents ++ [Msg.key "down" Option.none 0]))
      Option.none 0 (by decide)).1 (by decide)⟩

/-- C9: delivering a key that is none of up/k, down/j, enter, or a quit key
while the Confirmation screen is active leaves the confirmation cursor and
the active screen unchanged. -/
theorem claim9_confirm_other_keys (m : Model) (s : String)
    (pick : Option String) (now : Nat)
    (hv : m.currentView = confirmationView)
    (h1 : ¬ s = "up") (h2 : ¬ s = "k") (h3 : ¬ s = "down") (h4 : ¬ s = "j")
    (h5 : ¬ s = "enter") (h6 : ¬ s = "q") (h7 : ¬ s = "ctrl+c") :
    (update m (Msg.key s pick now)).1.cursor = m.cursor ∧
    (update m (Msg.key s pick now)).1.currentView = m.currentView := by
  have hnh : ¬ m.currentView = homeView := by rw [hv]; decide
  have hnq : ¬ m.currentView = quitView := by rw [hv]; decide
  have hnp : ¬ m.currentView = progressView := by rw [hv]; decide
  have hchain : update m (Msg.key s pick now) =
      updateConfirmation (Msg.key s pick now)
        { m with list := (listUpdate (Msg.key s pick now) m.list).1 } := by
    have hg : update m (Msg.key s pick now) =
        globalQuitThenDispatch s (Msg.key s pick now) m := by
      simp only [update, updateKey]
      rw [if_neg hnh, if_neg hnq, if_neg hnp]
    rw [hg]
    unfold globalQuitThenDispatch
    rw [if_neg (by simp [h6, h7]), dispatch_cf _ _ hv]
  rw [hchain]
  simp [updateConfirmation, h1, h2, h3, h4, h5]

/-- Witness for C9: an "x" key on the reachable Confirmation session changes
neither the cursor nor the screen. -/
theorem claim9_confirm_other_keys_witness :
    (update (foldUpd (initialModel "/h") (List.take 4 demoEvents))
        (Msg.key "x" Option.none 0)).1.cursor =
      (foldUpd (initialModel "/h") (List.take 4 demoEvents)).cursor ∧
    (update (foldUpd (initialModel "/h") (List.take 4 demoEvents))
        (Msg.key "x" Option.none 0)).1.currentView =
      (foldUpd (initialModel "/h") (List.take 4 demoEvents)).currentView :=
  claim9_confirm_other_keys (foldUpd (initialModel "/h") (List.take 4 demoEvents))
    "x" Option.none 0 (by decide) (by decide) (by decide) (by decide)
    (by decide) (by decide) (by decide) (by decide)

/-- C10: once `confirmed` is true in a reachable session, no sequence of
further events ever resets it: the run ends with the success summary and can
never print "Operation cancelled."; in particular this covers pressing "q"
on the Progress screen. -/
theorem claim10_confirmed_sticky (m : Model) (hm : Reaches m)
    (hc : m.confirmed = true) (events : List Msg) :
    (runLoop m events).confirmed = true ∧
    finalOutput (runLoop m events) =
      "Emails sent using CSV file: " ++ (runLoop m events).csvFilePath ++
        ", HTML template: " ++ (runLoop m events).htmlFilePath ++
        ", and subject: " ++ (runLoop m events).subject ++ "\n" ∧
    finalOutput (runLoop m events) ≠ "Operation cancelled.\n" := by
  have h := runLoop_confirmed events m hm hc
  have hout : finalOutput (runLoop m events) =
      "Emails sent using CSV file: " ++ (runLoop m events).csvFilePath ++
        ", HTML template: " ++ (runLoop m events).htmlFilePath ++
        ", and subject: " ++ (runLoop m events).subject ++ "\n" := by
    simp [finalOutput, h]
  exact ⟨h, hout, hout ▸ success_ne_cancel _ _ _⟩

/-- Witness for C10: pressing "q" on the Progress screen and letting the
debounced exit fire still ends the run confirmed, with the success line. -/
theorem claim10_confirmed_sticky_witness :
    (runLoop progressModel [Msg.key "q" Option.none 0, Msg.exit 1]).confirmed =
        true ∧
    finalOutput (runLoop progressModel [Msg.key "q" Option.none 0, Msg.exit 1]) =
      "Emails sent using CSV file: " ++
        (runLoop progressModel
          [Msg.key "q" Option.none 0, Msg.exit 1]).csvFilePath ++
        ", HTML template: " ++
        (runLoop progressModel
          [Msg.key "q" Option.none 0, Msg.exit 1]).htmlFilePath ++
        ", and subject: " ++
        (runLoop progressModel
          [Msg.key "q" Option.none 0, Msg.exit 1]).subject ++ "\n" ∧
    finalOutput (runLoop progressModel [Msg.key "q" Option.none 0, Msg.exit 1]) ≠
      "Operation cancelled.\n" :=
  claim10_confirmed_sticky progressModel
    (reaches_foldUpd demoEvents (initialModel "/h") (Reaches.init "/h"))
    (by decide) [Msg.key "q" Option.none 0, Msg.exit 1]

end MassMailer
